import Mathlib

/-! Verification development for the mini-server's request dispatch and routing
engine (`src/server/server.js`).  JavaScript strings are modelled as Lean
`String`; the string operations the source uses (`split`, `includes`,
`startsWith`, `toUpperCase`, `substring`, `replace`, `endsWith`) are given
explicit executable models over the underlying character lists so that both
concrete evaluation and universal reasoning are possible.
-/

/-- Model of JavaScript `str.split(sep)` for a one-character separator,
operating on the character list.  `[] ↦ [[]]` matches JS `''.split(s) = ['']`. -/
def splitOnCharList (sep : Char) : List Char → List (List Char)
  | [] => [[]]
  | c :: cs =>
    match splitOnCharList sep cs with
    | [] => [[]]
    | s :: ss => if c = sep then [] :: s :: ss else (c :: s) :: ss

/-- Model of JavaScript `str.split(sep)` returning strings. -/
def jsSplit (sep : Char) (s : String) : List String :=
  (splitOnCharList sep s.data).map (fun l => String.mk l)

/-- Substring containment on character lists: does `sub` occur contiguously
inside the second list? -/
def charsContain (sub : List Char) : List Char → Bool
  | [] => sub.isEmpty
  | c :: cs => sub.isPrefixOf (c :: cs) || charsContain sub cs

/-- Model of JavaScript `str.includes(sub)`: substring containment. -/
def jsIncludes (s sub : String) : Bool :=
  charsContain sub.data s.data

/-- Model of JavaScript `str.toUpperCase()` (ASCII, as the source uses it on
HTTP method names). -/
def jsToUpper (s : String) : String :=
  String.mk (s.data.map Char.toUpper)

/-- Model of JavaScript `str.endsWith(sub)`. -/
def jsEndsWith (s sub : String) : Bool :=
  sub.data.isSuffixOf s.data

/-- Model of JavaScript `str.replace(pat, repl)`: replaces the first
occurrence only. -/
def jsReplaceFirst (s pat repl : String) : String :=
  match s.splitOn pat with
  | x :: y :: rest => x ++ repl ++ String.intercalate pat (y :: rest)
  | _ => s

/-- Does a character-list segment start with the given character
(JS `part.startsWith(c)` on a split segment)? -/
def startsWithColon : List Char → Bool
  | ':' :: _ => true
  | _ => false

/-- JavaScript truthiness of an optional string: `undefined` and the empty
string are falsy. -/
def optTruthy : Option String → Bool
  | none => false
  | some s => !(s == "")

/-- JavaScript `a || b` for an optional string: falsy (`undefined` or empty)
falls back to the default. -/
def jsOrStr (v : Option String) (d : String) : String :=
  match v with
  | none => d
  | some s => if s == "" then d else s

/-- JavaScript `a || b` for an optional number: falsy (`undefined` or `0`)
falls back to the default. -/
def jsOrNat (v : Option Nat) (d : Nat) : Nat :=
  match v with
  | none => d
  | some n => if n = 0 then d else n

/-! Data model of the routing engine (`ApiController` in `src/server/server.js`). -/

/-- The pattern side of `ApiController.isRouteMatch`:
`{url: r.url, method: r.method}` as passed by `use`.  `method = none` models a
JS route object whose `method` field is `undefined`. -/
structure RoutePattern where
  url : String
  method : Option String
  deriving DecidableEq, Repr

/-- The request side of `ApiController.isRouteMatch` / `use`:
`{url, method: request.method}`.  The `url` has already been normalised to a
string by the caller (`typeof request.url === 'string' ? request.url : ''`). -/
structure RequestKey where
  url : String
  method : Option String
  deriving DecidableEq, Repr

/-- The body of `pathParts.every((part, i) => ...)` in `isRouteMatch`:
a pattern segment starting with `:` matches anything; otherwise it must equal
the corresponding request segment (`part === requestParts[i]`, which is false
when `requestParts[i]` is `undefined`, i.e. when the request list is shorter). -/
def segsEvery : List (List Char) → List (List Char) → Bool
  | [], _ => true
  | p :: ps, [] => startsWithColon p && segsEvery ps []
  | p :: ps, r :: rs => (startsWithColon p || p == r) && segsEvery ps rs

/-- `ApiController.isRouteMatch` (src/server/server.js:216-236).
Splits `route.url` and `request.url` on `/` (the raw URL — the query string is
NOT stripped here), rejects differing segment counts, rejects a
case-insensitive method mismatch when both sides carry a truthy method, and
otherwise requires every pattern segment to be a `:`-variable or equal to the
corresponding request segment. -/
def isRouteMatch (route : RoutePattern) (request : RequestKey) : Bool :=
  let pathParts := splitOnCharList '/' route.url.data
  let requestParts := splitOnCharList '/' request.url.data
  if pathParts.length ≠ requestParts.length then
    false
  else if optTruthy route.method && optTruthy request.method
      && !(jsToUpper (route.method.getD "") == jsToUpper (request.method.getD "")) then
    false
  else
    segsEvery pathParts requestParts

/-- Model of a JavaScript object used as a string-keyed record:
`m[k] = v` updates the value in place when the key exists (keeping insertion
order) and appends the pair otherwise. -/
def recordSet (m : List (String × String)) (k v : String) : List (String × String) :=
  if m.any (fun kv => kv.1 == k) then
    m.map (fun kv => if kv.1 == k then (k, v) else kv)
  else
    m ++ [(k, v)]

/-- The `pathParts.forEach((part, i) => ...)` loop of `getVariablesFromPath`:
for each pattern segment starting with `:`, bind the name after the colon
(`part.substring(1)`) to the request segment at the same index,
`requestParts[i] || ''` defaulting to the empty string when absent. -/
def collectVars : List (List Char) → List (List Char) → List (String × String) →
    List (String × String)
  | [], _, acc => acc
  | p :: ps, rs, acc =>
    collectVars ps rs.tail
      (if startsWithColon p then
        recordSet acc (String.mk (p.drop 1)) (String.mk (rs.headD []))
      else acc)

/-- `ApiController.getVariablesFromPath` (src/server/server.js:243-255).
Strips the query string from the request URL (`request.url.split('?')[0]`),
splits both sides on `/`, and binds each `:`-variable to the corresponding
request segment. -/
def getVariablesFromPath (path requestUrl : String) : List (String × String) :=
  let requestWithoutQuery := (splitOnCharList '?' requestUrl.data).headD []
  let pathParts := splitOnCharList '/' path.data
  let requestParts := splitOnCharList '/' requestWithoutQuery
  collectVars pathParts requestParts []

/-! Responses, routes and the controller. -/

/-- One observable action on the Node `ServerResponse`.  A response that is
only `endR` (no `writeHead`, no `write`) is sent by Node with the default
status 200 and an empty body. -/
inductive ResponseEvent where
  | writeHead (status : Nat) (headers : List (String × String))
  | write (chunk : String)
  | endR
  deriving DecidableEq, Repr

/-- A route as stored in `ApiController.routes`.  The handler
(`routeAction(req, res)`) is modelled in state-passing style over the shared
controller state `σ`: it receives the request and the current state and either
throws (`.error`) or returns the new state together with the response events it
wrote.  `method = none` models an absent `method` field. -/
structure ApiRoute (σ : Type) where
  url : String
  method : Option String
  routeAction : RequestKey → σ → Except String (σ × List ResponseEvent)

/-- The `ApiController` fields relevant to `use` (src/server/server.js:195-210):
the backing-file name, the persistence flag, the ordered route list, and the
shared mutable state.  (`tryToLoadState` hydration is asynchronous start-up
behaviour outside the per-request control flow modelled here.) -/
structure ApiController (σ : Type) where
  stateSaveFileName : String
  persistState : Bool
  routes : List (ApiRoute σ)
  state : σ

/-- The observable outcome of `ApiController.use`: the returned
`{handled}` flag, the controller state after the handler ran, the response
events written, and the fire-and-forget persistence writes issued
(`(fileName, contents)` pairs; the write is started and never awaited, so its
success or failure is invisible to the caller). -/
structure UseOutcome (σ : Type) where
  handled : Bool
  state : σ
  response : List ResponseEvent
  writes : List (String × String)

/-- The matched-route branch of `use`: invoke `route.routeAction`, then, if
`persistState`, start a write of `JSON.stringify(this.state, null, 2)` to the
backing file.  `stringifyPretty` stands for the external
`JSON.stringify(·, null, 2)` primitive.  A synchronous throw in the handler
propagates before the persistence block is reached. -/
def applyRoute {σ : Type} (c : ApiController σ) (stringifyPretty : σ → String)
    (route : ApiRoute σ) (request : RequestKey) : Except String (UseOutcome σ) :=
  match route.routeAction request c.state with
  | .error e => .error e
  | .ok (state', events) =>
    .ok { handled := true
          state := state'
          response := events
          writes :=
            if c.persistState then [(c.stateSaveFileName, stringifyPretty state')]
            else [] }

/-- `ApiController.use` (src/server/server.js:294-317): find the first route
matching `{url, method}` in insertion order; with no match return
`{handled: false}` untouched; otherwise run the route and persist. -/
def use {σ : Type} (c : ApiController σ) (stringifyPretty : σ → String)
    (request : RequestKey) : Except String (UseOutcome σ) :=
  match c.routes.find? (fun r =>
      isRouteMatch ⟨r.url, r.method⟩ ⟨request.url, request.method⟩) with
  | none => .ok { handled := false, state := c.state, response := [], writes := [] }
  | some route => applyRoute c stringifyPretty route request

/-- `ApiController.createRoute` (src/server/server.js:265-277): builds a canned
route with `method: method || 'GET'` and a handler answering
`status || 200` with `Content-Type: application/json` and
`JSON.stringify(data || \x7b\x7d)`.  `dataJson` stands for the already
serialised form of `data` (`none` models a falsy `data`, serialised as the
empty object). -/
def createRoute {σ : Type} (url : String) (method : Option String)
    (dataJson : Option String) (status : Option Nat) : ApiRoute σ :=
  { url := url
    method := some (jsOrStr method "GET")
    routeAction := fun _req s =>
      .ok (s, [ResponseEvent.writeHead (jsOrNat status 200)
                  [("Content-Type", "application/json")],
                ResponseEvent.write (jsOrStr dataJson "\x7b\x7d"),
                ResponseEvent.endR]) }

/-- `ApiController.addRoute` (src/server/server.js:324-327): appends the route
to the ordered route list. -/
def addRoute {σ : Type} (c : ApiController σ) (route : ApiRoute σ) : ApiController σ :=
  { c with routes := c.routes ++ [route] }

/-! The static file server and the dispatcher (`MiniServer`). -/

/-- Modelled from the spec: Node's `path.join` is an external collaborator
("filesystem primitives" are out of scope per §1); for the slash patterns this
server produces it joins its two arguments with a single `/` and performs no
dot-segment canonicalization (§4.3: "no canonicalization or containment
check"). -/
def joinPath (a b : String) : String :=
  match b.data with
  | '/' :: _ => a ++ b
  | _ => a ++ "/" ++ b

/-- Helper for `extname`: scan the reversed character list for the last `.` of
the final path component, accumulating the extension characters. -/
def extAux : List Char → List Char → String
  | [], _ => ""
  | '.' :: _, acc => String.mk ('.' :: acc)
  | '/' :: _, _ => ""
  | c :: cs, acc => extAux cs (c :: acc)

/-- Modelled from the spec: Node's `path.extname` (external collaborator) —
the suffix of the final path component starting at its last `.`, or the empty
string when there is none. -/
def extname (p : String) : String :=
  extAux p.data.reverse []

/-- The `contentTypes` table of `staticFileServer`
(src/server/server.js:107-114). -/
def contentTypes (ext : String) : Option String :=
  if ext == ".html" then some "text/html"
  else if ext == ".css" then some "text/css"
  else if ext == ".js" then some "text/javascript"
  else if ext == ".json" then some "text/json"
  else if ext == ".svg" then some "image/svg+xml"
  else none

/-- The filesystem as seen by `staticFileServer`, as an external collaborator:
`existsSync`, `statSync(·).isDirectory()` and `readFileSync` (whose failure is
the thrown error's string rendering). -/
structure FileSystem where
  existsSync : String → Bool
  isDirectory : String → Bool
  readFileSync : String → Except String String

/-- Placeholder body of the `htmlHotReloadWorker` getter; its exact text plays
no role in the dispatch control flow under verification. -/
def htmlHotReloadWorkerSource : String :=
  "onconnect-shared-worker-script"

/-- The `MiniServer` fields relevant to request handling
(src/server/server.js:21-34); field names follow the source, including its
spellings.  The controller state type is `σ`. -/
structure MiniServer (σ : Type) where
  staticFolder : String
  root : String
  port : Nat
  apiConteoller : Option (ApiController σ)
  hotRelaodfile : String
  devHotReload : Bool

/-- The injected bootstrap block of `htmlHotReloadScript`, abstracted to a
string mentioning the per-instance worker file name; its exact text plays no
role in the claims. -/
def htmlHotReloadScript {σ : Type} (s : MiniServer σ) : String :=
  "<script data-worker=" ++ s.hotRelaodfile ++ "></script>"

/-- The shared tail of `staticFileServer` (src/server/server.js:128-151): read
the file, inject the hot-reload script into HTML when enabled, set the
content type from the extension table, and answer 200; a read failure answers
500 `text/plain` with the error text. -/
def serveExistingFile {σ : Type} (s : MiniServer σ) (fs : FileSystem)
    (filename : String) : List ResponseEvent :=
  match fs.readFileSync filename with
  | .error err =>
    [ResponseEvent.writeHead 500 [("Content-Type", "text/plain")],
     ResponseEvent.write (err ++ "\n"),
     ResponseEvent.endR]
  | .ok file =>
    let file :=
      if jsEndsWith filename ".html" && s.devHotReload then
        jsReplaceFirst file "</head>" (htmlHotReloadScript s ++ "</head>")
      else file
    let headers :=
      match contentTypes (extname filename) with
      | some ct => [("Content-Type", ct)]
      | none => []
    [ResponseEvent.writeHead 200 headers,
     ResponseEvent.write file,
     ResponseEvent.endR]

/-- `MiniServer.staticFileServer` (src/server/server.js:93-152).  `cwd` stands
for `process.cwd()`.  In order: the `.well-known` probe check on the resolved
filename (immediate bare `end`, which Node sends as status 200 with empty
body), the hot-reload worker route, the not-found handling (400 for
`api`-looking paths, otherwise the fixed `404.html` under `cwd`), directory
resolution, then serving the file. -/
def staticFileServer {σ : Type} (s : MiniServer σ) (fs : FileSystem)
    (cwd : String) (request : RequestKey) : List ResponseEvent :=
  let url := request.url
  let basePath := joinPath s.root s.staticFolder
  let filename := joinPath basePath url
  if jsIncludes filename ".well-known" then
    [ResponseEvent.endR]
  else if s.devHotReload && (jsReplaceFirst url "/" "" == s.hotRelaodfile) then
    [ResponseEvent.writeHead 200 [("Content-Type", "text/javascript")],
     ResponseEvent.write htmlHotReloadWorkerSource,
     ResponseEvent.endR]
  else if !(fs.existsSync filename) then
    if jsIncludes filename "api" then
      [ResponseEvent.writeHead 400 [("Content-Type", "text/plain")],
       ResponseEvent.write "API call not found",
       ResponseEvent.endR]
    else
      serveExistingFile s fs (joinPath cwd "/404.html")
  else
    let filename := if fs.isDirectory filename then filename ++ "/index.html" else filename
    serveExistingFile s fs filename

/-- `MiniServer.apiCallsServer` (src/server/server.js:160-167): `undefined`
(`none`) when no controller is attached, otherwise the controller's `use`
result on the url-normalised request. -/
def apiCallsServer {σ : Type} (s : MiniServer σ) (stringifyPretty : σ → String)
    (request : RequestKey) : Except String (Option (UseOutcome σ)) :=
  match s.apiConteoller with
  | none => .ok none
  | some c =>
    match use c stringifyPretty request with
    | .error e => .error e
    | .ok out => .ok (some out)

/-- `MiniServer.serverMainHandler` (src/server/server.js:175-181): try the API
router first; when it handled the request the response is whatever the handler
wrote; otherwise fall back to the static file server. -/
def serverMainHandler {σ : Type} (s : MiniServer σ) (stringifyPretty : σ → String)
    (fs : FileSystem) (cwd : String) (request : RequestKey) :
    Except String (List ResponseEvent) :=
  match apiCallsServer s stringifyPretty request with
  | .error e => .error e
  | .ok (some out) =>
    if out.handled then .ok out.response else .ok (staticFileServer s fs cwd request)
  | .ok none => .ok (staticFileServer s fs cwd request)

/-! Concrete fixtures used by witnesses and counterexamples.  Handlers are
modelled on the ones registered in `src/server/controller.js`. -/

/-- A stand-in for `JSON.stringify(·, null, 2)` over a `Nat`-valued state. -/
def natStringify : Nat → String := fun _ => "pretty-json-state"

/-- A filesystem on which nothing exists and every read fails. -/
def noFileFs : FileSystem :=
  { existsSync := fun _ => false
    isDirectory := fun _ => false
    readFileSync := fun _ => .error "ENOENT" }

/-- A route registered on a `.well-known` path whose handler writes a
distinctive non-empty response. -/
def probeRoute : ApiRoute Nat :=
  { url := "/.well-known/x"
    method := none
    routeAction := fun _ s =>
      .ok (s, [ResponseEvent.writeHead 418 [], ResponseEvent.write "teapot",
               ResponseEvent.endR]) }

/-- A controller carrying only `probeRoute`. -/
def probeController : ApiController Nat :=
  { stateSaveFileName := "./server.state.temp"
    persistState := false
    routes := [probeRoute]
    state := 0 }

/-- A server whose controller has a route on a `.well-known` path. -/
def probeServer : MiniServer Nat :=
  { staticFolder := "public"
    root := "/srv"
    port := 4200
    apiConteoller := some probeController
    hotRelaodfile := "hot-reload-abc.js"
    devHotReload := false }

/-- A controller with one ordinary API route (none on `.well-known` paths). -/
def plainController : ApiController Nat :=
  { stateSaveFileName := "./server.state.temp"
    persistState := false
    routes := [createRoute "/api/first" none none none]
    state := 0 }

/-- A server whose controller has no route matching `.well-known` probes. -/
def plainServer : MiniServer Nat :=
  { staticFolder := "public"
    root := "/srv"
    port := 4200
    apiConteoller := some plainController
    hotRelaodfile := "hot-reload-abc.js"
    devHotReload := false }

/-- A server with no API controller, used for exercising the static pipeline. -/
def staticOnlyServer : MiniServer Nat :=
  { staticFolder := "public"
    root := "/srv"
    port := 4200
    apiConteoller := none
    hotRelaodfile := "hot-reload-abc.js"
    devHotReload := false }

/-- A filesystem where only `/home/404.html` is readable (and nothing exists,
so the not-found fallback is always taken). -/
def notFoundFs : FileSystem :=
  { existsSync := fun _ => false
    isDirectory := fun _ => false
    readFileSync := fun p =>
      if p == "/home/404.html" then .ok "<html>not found page</html>"
      else .error "ENOENT" }

/-- A route that never matches the overlap request (different segment count). -/
def otherRoute : ApiRoute Nat := createRoute "/other" none none none

/-- A variable-segment route overlapping `litRoute`, registered earlier. -/
def varRoute : ApiRoute Nat := createRoute "/api/x/:id" none (some "\x22A\x22") (some 201)

/-- A literal route of identical shape to `varRoute`, registered later. -/
def litRoute : ApiRoute Nat := createRoute "/api/x/42" none (some "\x22B\x22") (some 202)

/-- Controller holding `otherRoute`, then `varRoute`, then `litRoute`,
in that insertion order. -/
def overlapRouter : ApiController Nat :=
  { stateSaveFileName := "./server.state.temp"
    persistState := false
    routes := [otherRoute, varRoute, litRoute]
    state := 0 }

/-- The request matched by both `varRoute` and `litRoute`. -/
def overlapReq : RequestKey := ⟨"/api/x/42", some "GET"⟩

/-- The counting handler of the `/api/first` route in
`src/server/controller.js`: increments the shared count and reports it. -/
def countRoute : ApiRoute Nat :=
  { url := "/api/first"
    method := none
    routeAction := fun req s =>
      .ok (s + 1, [ResponseEvent.writeHead 200 [("Content-Type", "text/plain")],
                   ResponseEvent.write ("route " ++ req.url ++ " was called"),
                   ResponseEvent.endR]) }

/-- A persisting controller holding the counting route. -/
def persistController : ApiController Nat :=
  { stateSaveFileName := "./server.state.temp"
    persistState := true
    routes := [countRoute]
    state := 0 }

/-- A persisting controller with a single route, for the no-match case. -/
def noMatchController : ApiController Nat :=
  { stateSaveFileName := "./server.state.temp"
    persistState := true
    routes := [createRoute "/api/first" none none none]
    state := 3 }

/-- A route whose handler throws synchronously. -/
def throwRoute : ApiRoute Nat :=
  { url := "/api/boom"
    method := none
    routeAction := fun _ _ => .error "boom" }

/-- A persisting controller holding the throwing route. -/
def throwController : ApiController Nat :=
  { stateSaveFileName := "./server.state.temp"
    persistState := true
    routes := [throwRoute]
    state := 7 }

/-! Helper lemmas about the string-splitting model. -/

theorem string_data_append (a b : String) : (a ++ b).data = a.data ++ b.data := by
  cases a
  cases b
  rfl

theorem splitOnCharList_ne_nil (sep : Char) (l : List Char) :
    splitOnCharList sep l ≠ [] := by
  cases l with
  | nil => simp [splitOnCharList]
  | cons c cs =>
    unfold splitOnCharList
    rcases h : splitOnCharList sep cs with _ | ⟨s, ss⟩
    · simp
    · dsimp
      split <;> simp

theorem splitOnCharList_of_not_mem (sep : Char) (l : List Char) (h : sep ∉ l) :
    splitOnCharList sep l = [l] := by
  induction l with
  | nil => rfl
  | cons c cs ih =>
    have hc : ¬(c = sep) := fun e => h (e ▸ List.mem_cons_self c cs)
    have hcs : sep ∉ cs := fun m => h (List.mem_cons_of_mem _ m)
    simp [splitOnCharList, ih hcs, hc]

theorem splitOnCharList_append_sep (sep : Char) (l₁ l₂ : List Char) (h : sep ∉ l₁) :
    splitOnCharList sep (l₁ ++ sep :: l₂) = l₁ :: splitOnCharList sep l₂ := by
  induction l₁ with
  | nil =>
    obtain ⟨s, ss, hss⟩ := List.exists_cons_of_ne_nil (splitOnCharList_ne_nil sep l₂)
    simp [splitOnCharList, hss]
  | cons c cs ih =>
    have hc : ¬(c = sep) := fun e => h (e ▸ List.mem_cons_self c cs)
    have hcs : sep ∉ cs := fun m => h (List.mem_cons_of_mem _ m)
    simp [splitOnCharList, ih hcs, hc]

theorem not_mem_headD_splitOnCharList (sep : Char) (l : List Char) :
    sep ∉ (splitOnCharList sep l).headD [] := by
  induction l with
  | nil => simp [splitOnCharList]
  | cons c cs ih =>
    obtain ⟨s, ss, hss⟩ := List.exists_cons_of_ne_nil (splitOnCharList_ne_nil sep cs)
    rw [hss] at ih
    by_cases hc : c = sep
    · simp [splitOnCharList, hss, hc]
    · simp only [splitOnCharList, hss, if_neg hc, List.headD_cons] at ih ⊢
      intro hmem
      rcases List.mem_cons.mp hmem with e | m
      · exact hc e.symm
      · exact ih m

/-! Claim C1. -/

/-- C1 is false on the code: `isRouteMatch` splits the raw request URL without
stripping the query string, so the literal pattern `/api/first` matches the
request `/api/first` but does not match `/api/first?x=1`, contradicting the
claim that the two are matched identically. -/
theorem claim_C1_counterexample :
    isRouteMatch ⟨"/api/first", none⟩ ⟨"/api/first", none⟩ = true ∧
    isRouteMatch ⟨"/api/first", none⟩ ⟨"/api/first?x=1", none⟩ = false :=
  ⟨by decide, by decide⟩

/-- C1 amended: route matching does not exclude the query string — the request
URL is split on `/` as-is.  A pattern whose final segment is a literal
(`/api/first`) matches the bare path but fails against the same path with any
non-empty query string appended, while a pattern ending in a variable segment
(`/api/second/:id`) still matches, the variable segment absorbing the query
text. -/
theorem claim_C1_amended_no_query_strip (q : String) (hq : '/' ∉ q.data) :
    isRouteMatch ⟨"/api/first", none⟩ ⟨"/api/first?" ++ q, none⟩ = false ∧
    isRouteMatch ⟨"/api/second/:id", none⟩ ⟨"/api/second/42?" ++ q, none⟩ = true ∧
    isRouteMatch ⟨"/api/first", none⟩ ⟨"/api/first", none⟩ = true := by
  refine ⟨?_, ?_, by decide⟩
  · have hnm : '/' ∉ (['f','i','r','s','t','?'] ++ q.data) := by
      intro hm
      rcases List.mem_append.mp hm with h | h
      · exact absurd h (by decide)
      · exact hq h
    have s1 : splitOnCharList '/' (("/api/first?" ++ q) : String).data
        = [[], ['a','p','i'], ['f','i','r','s','t','?'] ++ q.data] := by
      rw [string_data_append]
      have e : ("/api/first?" : String).data ++ q.data
          = ([] : List Char) ++ '/' :: (['a','p','i'] ++ '/' ::
              (['f','i','r','s','t','?'] ++ q.data)) := rfl
      rw [e, splitOnCharList_append_sep _ _ _ (by simp),
          splitOnCharList_append_sep _ _ _ (by decide),
          splitOnCharList_of_not_mem _ _ hnm]
    simp only [isRouteMatch]
    rw [s1]
    rfl
  · have hnm : '/' ∉ (['4','2','?'] ++ q.data) := by
      intro hm
      rcases List.mem_append.mp hm with h | h
      · exact absurd h (by decide)
      · exact hq h
    have s2 : splitOnCharList '/' (("/api/second/42?" ++ q) : String).data
        = [[], ['a','p','i'], ['s','e','c','o','n','d'], ['4','2','?'] ++ q.data] := by
      rw [string_data_append]
      have e : ("/api/second/42?" : String).data ++ q.data
          = ([] : List Char) ++ '/' :: (['a','p','i'] ++ '/' ::
              (['s','e','c','o','n','d'] ++ '/' :: (['4','2','?'] ++ q.data))) := rfl
      rw [e, splitOnCharList_append_sep _ _ _ (by simp),
          splitOnCharList_append_sep _ _ _ (by decide),
          splitOnCharList_append_sep _ _ _ (by decide),
          splitOnCharList_of_not_mem _ _ hnm]
    simp only [isRouteMatch]
    rw [s2]
    rfl

/-- C1 witness: the amended theorem applied at the query string `x=1`. -/
theorem claim_C1_witness :
    ('/' ∉ ("x=1" : String).data) ∧
    (isRouteMatch ⟨"/api/first", none⟩ ⟨"/api/first?" ++ "x=1", none⟩ = false ∧
     isRouteMatch ⟨"/api/second/:id", none⟩ ⟨"/api/second/42?" ++ "x=1", none⟩ = true ∧
     isRouteMatch ⟨"/api/first", none⟩ ⟨"/api/first", none⟩ = true) :=
  ⟨by decide, claim_C1_amended_no_query_strip "x=1" (by decide)⟩

/-! Claim C4. -/

/-- C4 is false on the code: a colon-prefixed pattern segment returns `true`
for any corresponding request segment, including the empty one, so
`/api/second/:id` matches the request `/api/second/` whose final segment is
empty — the claim says it must not. -/
theorem claim_C4_counterexample :
    isRouteMatch ⟨"/api/second/:id", none⟩ ⟨"/api/second/", none⟩ = true := by decide

/-- C4 amended: for a pattern with a variable segment and a request of equal
segment count, the variable segment matches any segment value, the empty
string included. -/
theorem claim_C4_amended_var_matches_any (v : String) (hv : '/' ∉ v.data) :
    isRouteMatch ⟨"/api/second/:id", none⟩ ⟨"/api/second/" ++ v, none⟩ = true := by
  have s3 : splitOnCharList '/' (("/api/second/" ++ v) : String).data
      = [[], ['a','p','i'], ['s','e','c','o','n','d'], v.data] := by
    rw [string_data_append]
    have e : ("/api/second/" : String).data ++ v.data
        = ([] : List Char) ++ '/' :: (['a','p','i'] ++ '/' ::
            (['s','e','c','o','n','d'] ++ '/' :: v.data)) := rfl
    rw [e, splitOnCharList_append_sep _ _ _ (by simp),
        splitOnCharList_append_sep _ _ _ (by decide),
        splitOnCharList_append_sep _ _ _ (by decide),
        splitOnCharList_of_not_mem _ _ hv]
  simp only [isRouteMatch]
  rw [s3]
  rfl

/-- C4 witness: the amended theorem applied at the empty segment value. -/
theorem claim_C4_witness :
    ('/' ∉ ("" : String).data) ∧
    isRouteMatch ⟨"/api/second/:id", none⟩ ⟨"/api/second/" ++ "", none⟩ = true :=
  ⟨by decide, claim_C4_amended_var_matches_any "" (by decide)⟩

/-! Claim C3. -/

/-- C3 is false on the code: defaulting to `GET` happens only inside
`createRoute`; a route stored with its `method` field unspecified (as the
routes added by `addRoute` in `src/server/controller.js` are) skips the method
check entirely, so it DOES match a `POST` request to the same path. -/
theorem claim_C3_counterexample :
    isRouteMatch ⟨"/api/first", none⟩ ⟨"/api/first", some "POST"⟩ = true := by decide

/-- C3 amended: (1) `createRoute` with an unspecified method defaults the
route's method to `GET`, and (2) such a route does not match a request whose
method is set and is not `GET` (case-insensitively); but (3) a route stored
directly with no method matches a request of any method; and (4) when both
route and request carry a method, the comparison is case-insensitive: equal
uppercasings make the method filter pass. -/
theorem claim_C3_amended_method_default :
    (∀ (σ : Type) (u : String) (d : Option String) (st : Option Nat),
      (createRoute (σ := σ) u none d st).method = some "GET") ∧
    (∀ (u v m : String), ¬ m = "" → ¬ jsToUpper m = "GET" →
      isRouteMatch ⟨u, some "GET"⟩ ⟨v, some m⟩ = false) ∧
    (∀ (u v : String) (om : Option String),
      isRouteMatch ⟨u, none⟩ ⟨v, om⟩ = isRouteMatch ⟨u, none⟩ ⟨v, none⟩) ∧
    (∀ (u v rm qm : String), jsToUpper rm = jsToUpper qm →
      isRouteMatch ⟨u, some rm⟩ ⟨v, some qm⟩ = isRouteMatch ⟨u, none⟩ ⟨v, none⟩) := by
  refine ⟨fun σ u d st => rfl, ?_, ?_, ?_⟩
  · intro u v m hm hup
    have hmfalse : (m == "") = false := beq_eq_false_iff_ne.mpr hm
    simp only [isRouteMatch]
    split
    · rfl
    · simp [optTruthy, hmfalse]
      intro e
      exact absurd e.symm hup
  · intro u v om
    simp [isRouteMatch, optTruthy]
  · intro u v rm qm h
    simp [isRouteMatch, optTruthy, h]

/-- C3 witness: the amended theorem applied at concrete routes and requests —
a `createRoute`-built route with unspecified method carries `GET` and rejects
a `POST` request, a method-less pattern matches a `POST` request, and
lower-case `get` passes the filter against upper-case `GET`. -/
theorem claim_C3_witness :
    ((createRoute (σ := Nat) "/api/first" none none none).method = some "GET") ∧
    (isRouteMatch ⟨"/api/first", some "GET"⟩ ⟨"/api/first", some "POST"⟩ = false) ∧
    (isRouteMatch ⟨"/api/first", none⟩ ⟨"/api/first", some "POST"⟩ =
      isRouteMatch ⟨"/api/first", none⟩ ⟨"/api/first", none⟩) ∧
    (isRouteMatch ⟨"/api/first", some "get"⟩ ⟨"/api/first", some "GET"⟩ =
      isRouteMatch ⟨"/api/first", none⟩ ⟨"/api/first", none⟩) :=
  ⟨claim_C3_amended_method_default.1 Nat "/api/first" none none,
   claim_C3_amended_method_default.2.1 "/api/first" "/api/first" "POST"
     (by decide) (by decide),
   claim_C3_amended_method_default.2.2.1 "/api/first" "/api/first" (some "POST"),
   claim_C3_amended_method_default.2.2.2 "/api/first" "/api/first" "get" "GET"
     (by decide)⟩

/-! Claim C5. -/

/-- C5: routes are scanned in insertion order and the first matching route is
the one whose handler is invoked — whenever the route list splits as
`pre ++ r :: post` with nothing in `pre` matching and `r` matching, `use`
behaves exactly as running `r` (routes in `post`, matching or not, are never
consulted). -/
theorem claim_C5_first_registered_wins {σ : Type} (c : ApiController σ)
    (strf : σ → String) (request : RequestKey) (pre post : List (ApiRoute σ))
    (r : ApiRoute σ)
    (hroutes : c.routes = pre ++ r :: post)
    (hpre : ∀ r' ∈ pre,
      isRouteMatch ⟨r'.url, r'.method⟩ ⟨request.url, request.method⟩ = false)
    (hr : isRouteMatch ⟨r.url, r.method⟩ ⟨request.url, request.method⟩ = true) :
    use c strf request = applyRoute c strf r request := by
  have hfind : ∀ ps : List (ApiRoute σ),
      (∀ r' ∈ ps,
        isRouteMatch ⟨r'.url, r'.method⟩ ⟨request.url, request.method⟩ = false) →
      (ps ++ r :: post).find? (fun r' =>
        isRouteMatch ⟨r'.url, r'.method⟩ ⟨request.url, request.method⟩) = some r := by
    intro ps
    induction ps with
    | nil =>
      intro _
      exact List.find?_cons_of_pos
        (p := fun (r' : ApiRoute σ) =>
          isRouteMatch ⟨r'.url, r'.method⟩ ⟨request.url, request.method⟩)
        _ hr
    | cons a as ih =>
      intro hps
      have ha : ¬ (isRouteMatch ⟨a.url, a.method⟩ ⟨request.url, request.method⟩ = true) :=
        by simp [hps a (List.mem_cons_self a as)]
      rw [List.cons_append, List.find?_cons_of_neg
        (p := fun (r' : ApiRoute σ) =>
          isRouteMatch ⟨r'.url, r'.method⟩ ⟨request.url, request.method⟩)
        _ ha]
      exact ih (fun r' h' => hps r' (List.mem_cons_of_mem _ h'))
  unfold use
  rw [hroutes, hfind pre hpre]

/-- C5 witness: in a controller registering a non-matching route, then a
variable route `/api/x/:id`, then an overlapping literal route `/api/x/42` of
identical shape, the request `GET /api/x/42` — matched by both — is handled by
the earlier variable route (its status 201 payload, not the literal route's
202). -/
theorem claim_C5_witness :
    use overlapRouter natStringify overlapReq =
      applyRoute overlapRouter natStringify varRoute overlapReq ∧
    use overlapRouter natStringify overlapReq =
      .ok { handled := true, state := 0,
            response := [ResponseEvent.writeHead 201
                           [("Content-Type", "application/json")],
                         ResponseEvent.write "\x22A\x22", ResponseEvent.endR],
            writes := [] } := by
  have h := claim_C5_first_registered_wins overlapRouter natStringify overlapReq
    [otherRoute] [litRoute] varRoute rfl
    (by
      intro r' h'
      rcases List.mem_singleton.mp h' with rfl
      decide)
    (by decide)
  exact ⟨h, by rw [h]; rfl⟩

/-! Claim C7. -/

/-- C7: when no registered route matches the request, `use` returns
`{handled: false}` with no side effects — the controller state is returned
unchanged, no response events are written, and no persistence write is
issued. -/
theorem claim_C7_no_match_no_side_effects {σ : Type} (c : ApiController σ)
    (strf : σ → String) (request : RequestKey)
    (h : ∀ r ∈ c.routes,
      isRouteMatch ⟨r.url, r.method⟩ ⟨request.url, request.method⟩ = false) :
    use c strf request =
      .ok { handled := false, state := c.state, response := [], writes := [] } := by
  have hfind : c.routes.find? (fun r =>
      isRouteMatch ⟨r.url, r.method⟩ ⟨request.url, request.method⟩) = none :=
    List.find?_eq_none.mpr (fun r hr => by simp [h r hr])
  unfold use
  rw [hfind]

/-- C7 witness: a persisting controller whose single route `/api/first` does
not match `GET /nope` returns `{handled: false}`, keeps its state `3`, and
issues no response events and no writes. -/
theorem claim_C7_witness :
    use noMatchController natStringify ⟨"/nope", some "GET"⟩ =
      .ok { handled := false, state := 3, response := [], writes := [] } :=
  claim_C7_no_match_no_side_effects noMatchController natStringify
    ⟨"/nope", some "GET"⟩
    (by
      intro r hr
      rcases List.mem_singleton.mp hr with rfl
      decide)

/-! Claim C8. -/

/-- C8: for every request handled by a matching route with persistence
enabled, `use` issues exactly one fire-and-forget write to the backing file
whose payload is the pretty-JSON serialisation of the controller state as it
stands after the handler ran — for every handled request, whether or not the
handler changed the state (`s'` is arbitrary) — and still reports
`{handled: true}` to the caller (the write's outcome is never surfaced). -/
theorem claim_C8_persist_after_handled {σ : Type} (c : ApiController σ)
    (strf : σ → String) (request : RequestKey) (r : ApiRoute σ) (s' : σ)
    (evs : List ResponseEvent)
    (hp : c.persistState = true)
    (hfind : c.routes.find? (fun r' =>
      isRouteMatch ⟨r'.url, r'.method⟩ ⟨request.url, request.method⟩) = some r)
    (hact : r.routeAction request c.state = .ok (s', evs)) :
    use c strf request =
      .ok { handled := true, state := s', response := evs,
            writes := [(c.stateSaveFileName, strf s')] } := by
  unfold use applyRoute
  rw [hfind]
  dsimp only
  rw [hact]
  simp [hp]

/-- C8 witness: the counting controller handling `GET /api/first` increments
its state to `1` and issues one write of the serialised new state to
`./server.state.temp`. -/
theorem claim_C8_witness :
    use persistController natStringify ⟨"/api/first", some "GET"⟩ =
      .ok { handled := true, state := 1,
            response := [ResponseEvent.writeHead 200 [("Content-Type", "text/plain")],
                         ResponseEvent.write "route /api/first was called",
                         ResponseEvent.endR],
            writes := [("./server.state.temp", natStringify 1)] } :=
  claim_C8_persist_after_handled persistController natStringify
    ⟨"/api/first", some "GET"⟩ countRoute 1 _ rfl rfl rfl

/-! Claim C10. -/

/-- C10: when the first matching route's handler throws synchronously, `use`
propagates the exception — the result is the error itself, not
`{handled: true}`, and in particular the persistence block is never reached,
so no write of the controller state is issued. -/
theorem claim_C10_handler_throw_propagates {σ : Type} (c : ApiController σ)
    (strf : σ → String) (request : RequestKey) (r : ApiRoute σ) (e : String)
    (hfind : c.routes.find? (fun r' =>
      isRouteMatch ⟨r'.url, r'.method⟩ ⟨request.url, request.method⟩) = some r)
    (hact : r.routeAction request c.state = .error e) :
    use c strf request = .error e := by
  unfold use applyRoute
  rw [hfind]
  dsimp only
  rw [hact]

/-- C10 witness: the persisting controller whose `/api/boom` handler throws
`boom` yields exactly `.error "boom"` from `use` — no outcome, hence no
persistence write, despite `persistState` being enabled. -/
theorem claim_C10_witness :
    use throwController natStringify ⟨"/api/boom", some "GET"⟩ = .error "boom" :=
  claim_C10_handler_throw_propagates throwController natStringify
    ⟨"/api/boom", some "GET"⟩ throwRoute "boom" rfl rfl

/-! Claim C2. -/

/-- C2 is false on the code: the `.well-known` check lives inside
`staticFileServer`, which `serverMainHandler` only reaches when routing did
NOT handle the request — routing is not bypassed.  With a route registered on
`/.well-known/x`, the request (whose resolved path does contain
`.well-known`) is answered by that route's handler (418 `teapot`), not with
the empty 200 response. -/
theorem claim_C2_counterexample :
    jsIncludes (joinPath (joinPath probeServer.root probeServer.staticFolder)
        "/.well-known/x") ".well-known" = true ∧
    serverMainHandler probeServer natStringify noFileFs "/home"
        ⟨"/.well-known/x", some "GET"⟩ =
      .ok [ResponseEvent.writeHead 418 [], ResponseEvent.write "teapot",
           ResponseEvent.endR] ∧
    [ResponseEvent.writeHead 418 [], ResponseEvent.write "teapot",
     ResponseEvent.endR] ≠ [ResponseEvent.endR] :=
  ⟨by decide, rfl, by decide⟩

/-- C2 amended: for every request that no registered route matches (routing is
consulted first and is not bypassed), when the resolved path contains a
`.well-known` segment the server ends the response immediately — a bare `end`
that Node sends as status 200 with an empty body — bypassing all static
resolution, regardless of what exists on disk (`fs` is arbitrary). -/
theorem claim_C2_amended_wellknown {σ : Type} (s : MiniServer σ) (strf : σ → String)
    (fs : FileSystem) (cwd : String) (request : RequestKey)
    (hroutes : ∀ c, s.apiConteoller = some c → ∀ r ∈ c.routes,
      isRouteMatch ⟨r.url, r.method⟩ ⟨request.url, request.method⟩ = false)
    (hwk : jsIncludes (joinPath (joinPath s.root s.staticFolder) request.url)
      ".well-known" = true) :
    serverMainHandler s strf fs cwd request = .ok [ResponseEvent.endR] := by
  have hstatic : staticFileServer s fs cwd request = [ResponseEvent.endR] := by
    unfold staticFileServer
    simp [hwk]
  cases h : s.apiConteoller with
  | none => simp [serverMainHandler, apiCallsServer, h, hstatic]
  | some c =>
    have hfind : c.routes.find? (fun r =>
        isRouteMatch ⟨r.url, r.method⟩ ⟨request.url, request.method⟩) = none :=
      List.find?_eq_none.mpr (fun r hr => by simp [hroutes c h r hr])
    simp [serverMainHandler, apiCallsServer, h, use, hfind, hstatic]

/-- C2 witness: the amended theorem applied to a server whose only route is
`/api/first` and the probe request `GET /.well-known/acme` on a filesystem
with no files. -/
theorem claim_C2_witness :
    serverMainHandler plainServer natStringify noFileFs "/home"
        ⟨"/.well-known/acme", some "GET"⟩ = .ok [ResponseEvent.endR] :=
  claim_C2_amended_wellknown plainServer natStringify noFileFs "/home"
    ⟨"/.well-known/acme", some "GET"⟩
    (by
      intro c hc r hr
      have hc' : some plainController = some c := hc
      cases Option.some.inj hc'
      rcases List.mem_singleton.mp hr with rfl
      decide)
    (by decide)

/-! Claim C6. -/

/-- The `404.html` fallback file always carries the `.html` extension, however
the working directory is spelled. -/
theorem extname_cwd_404 (cwd : String) : extname (joinPath cwd "/404.html") = ".html" := by
  have hj : joinPath cwd "/404.html" = cwd ++ "/404.html" := rfl
  rw [hj]
  unfold extname
  rw [string_data_append, List.reverse_append]
  show extAux (('l' :: 'm' :: 't' :: 'h' :: '.' :: '4' :: '0' :: '4' :: '/' :: []) ++
      cwd.data.reverse) [] = ".html"
  rfl

/-- C6: when the static resolver runs for a request whose resolved path does
not exist on disk (and neither the `.well-known` nor the hot-reload special
case fires, `devHotReload` being off): if the resolved path contains the
substring `api`, the response is status 400 `text/plain` with body
`API call not found`; otherwise the filename is replaced by the fixed
`404.html` under the working directory and that file's content is served with
status 200 (and `text/html`), not 404. -/
theorem claim_C6_not_found_fallbacks {σ : Type} (s : MiniServer σ) (fs : FileSystem)
    (cwd : String) (request : RequestKey) (content : String)
    (hwk : jsIncludes (joinPath (joinPath s.root s.staticFolder) request.url)
      ".well-known" = false)
    (hdev : s.devHotReload = false)
    (hex : fs.existsSync (joinPath (joinPath s.root s.staticFolder) request.url)
      = false) :
    (jsIncludes (joinPath (joinPath s.root s.staticFolder) request.url) "api" = true →
      staticFileServer s fs cwd request =
        [ResponseEvent.writeHead 400 [("Content-Type", "text/plain")],
         ResponseEvent.write "API call not found", ResponseEvent.endR]) ∧
    (jsIncludes (joinPath (joinPath s.root s.staticFolder) request.url) "api" = false →
      fs.readFileSync (joinPath cwd "/404.html") = .ok content →
      staticFileServer s fs cwd request =
        [ResponseEvent.writeHead 200 [("Content-Type", "text/html")],
         ResponseEvent.write content, ResponseEvent.endR]) := by
  constructor
  · intro hapi
    unfold staticFileServer
    simp [hwk, hdev, hex, hapi]
  · intro hapi h404
    unfold staticFileServer
    simp [hwk, hdev, hex, hapi, serveExistingFile, h404, extname_cwd_404, contentTypes]

/-- C6 witness: on a server rooted at `/srv/public` with nothing on disk,
`GET /api/missing` yields the 400 plain-text API answer, while
`GET /missing.html` yields the content of `/home/404.html` with status 200. -/
theorem claim_C6_witness :
    staticFileServer staticOnlyServer notFoundFs "/home" ⟨"/api/missing", some "GET"⟩ =
      [ResponseEvent.writeHead 400 [("Content-Type", "text/plain")],
       ResponseEvent.write "API call not found", ResponseEvent.endR] ∧
    staticFileServer staticOnlyServer notFoundFs "/home" ⟨"/missing.html", some "GET"⟩ =
      [ResponseEvent.writeHead 200 [("Content-Type", "text/html")],
       ResponseEvent.write "<html>not found page</html>", ResponseEvent.endR] := by
  constructor
  · exact (claim_C6_not_found_fallbacks staticOnlyServer notFoundFs "/home"
      ⟨"/api/missing", some "GET"⟩ "<html>not found page</html>"
      (by decide) rfl (by decide)).1 (by decide)
  · exact (claim_C6_not_found_fallbacks staticOnlyServer notFoundFs "/home"
      ⟨"/missing.html", some "GET"⟩ "<html>not found page</html>"
      (by decide) rfl (by decide)).2 (by decide) rfl

/-! Claim C9. -/

/-- C9: `getVariablesFromPath` strips the query string from the request path
first — its result depends only on the part of the URL before the first `?`
(stripping is idempotent) — then binds each `:`-variable to the corresponding
request segment: on `('/api/second/:id', '/api/second/42?x=1')` it yields
exactly `id ↦ 42`, and an absent request segment binds the empty string, as
`('/a/:x/:y', '/a/b') ↦ x ↦ b, y ↦ ""` shows. -/
theorem claim_C9_extract_variables :
    (∀ (pat requestUrl : String),
      getVariablesFromPath pat requestUrl =
        getVariablesFromPath pat
          (String.mk ((splitOnCharList '?' requestUrl.data).headD []))) ∧
    getVariablesFromPath "/api/second/:id" "/api/second/42?x=1" = [("id", "42")] ∧
    getVariablesFromPath "/a/:x/:y" "/a/b" = [("x", "b"), ("y", "")] := by
  refine ⟨?_, by decide, by decide⟩
  intro pat requestUrl
  simp only [getVariablesFromPath]
  rw [splitOnCharList_of_not_mem '?' _
    (not_mem_headD_splitOnCharList '?' requestUrl.data), List.headD_cons]

